import Mathlib

/-!
Verification development for the CloudDeploymentDashboard repository.

The definitions below are a shallow embedding of the Python sources:
`app/services/deployment_service.py` (the deployment job tracker and its
file-backed job store), `app/routes.py` (the HTTP rerun endpoint), and
`app/services/realtime_service.py` (the broadcast hub and its periodic
system-metrics loop).  File I/O is modelled as a total key-value store,
`datetime.now()` as a monotone counter, and `uuid.uuid4()` as the canonical
hex rendering of an externally supplied 128-bit value.
-/

namespace CloudDash

/-- One entry of a job's `logs` list: `timestamp` plus free-text `message`
(`deployment_service.py`, `_log_deployment_step`). -/
structure LogEntry where
  timestamp : Nat
  message : String
  deriving DecidableEq, Repr

/-- The job record dictionary written by `DeploymentService.deploy`
(`deployment_service.py`, lines 279-290).  Keys `end_time` and `error` are
absent from the initial dictionary and only added later, hence `Option`. -/
structure JobRecord where
  job_id : String
  action : String
  image_name : String
  environment : String
  port_mapping : String
  env_vars : List (String × String)
  start_time : Nat
  status : String
  logs : List LogEntry
  progress : Nat
  end_time : Option Nat
  error : Option String
  deriving DecidableEq, Repr

/-- Contents of one file in the `logs/deployments` directory: either the
JSON dump of a job record (written by `_save_deployment_log`) or raw text. -/
inductive FileContent where
  | jsonRecord (r : JobRecord)
  | text (s : String)
  deriving DecidableEq, Repr

/-- The `logs/deployments` directory as a last-writer-wins association list
from file name to content. -/
abbrev FileStore := List (String × FileContent)

/-- Read a file: the most recent write of `name` wins. -/
def fsGet : FileStore → String → Option FileContent
  | [], _ => none
  | (k, c) :: rest, name => if name = k then some c else fsGet rest name

/-- Write (or overwrite) a file. -/
def fsPut (fs : FileStore) (name : String) (c : FileContent) : FileStore :=
  (name, c) :: fs

/-- Deployment-service state: the backing file store plus a monotone clock
standing in for `datetime.now()`. -/
structure DState where
  files : FileStore
  clock : Nat
  deriving DecidableEq, Repr

/-- A `datetime.now()` call: returns the current instant and advances the
clock, so successive calls observe non-decreasing timestamps. -/
def now (st : DState) : Nat × DState :=
  (st.clock, { st with clock := st.clock + 1 })

/-- Lower-case hex digit of `n % 16`. -/
def hexChar (n : Nat) : Char :=
  if n < 10 then Char.ofNat (48 + n) else Char.ofNat (87 + n)

/-- Fixed-width big-endian hex rendering of `n`. -/
def hexFixed : Nat → Nat → List Char
  | 0, _ => []
  | w + 1, n => hexFixed w (n / 16) ++ [hexChar (n % 16)]

/-- Canonical 8-4-4-4-12 string form of a 128-bit UUID value: the model of
`str(uuid.uuid4())`, with `bits` the externally drawn random value. -/
def uuid4Chars (bits : Nat) : List Char :=
  hexFixed 8 (bits / 2 ^ 96 % 2 ^ 32) ++ '-' ::
  (hexFixed 4 (bits / 2 ^ 80 % 2 ^ 16) ++ '-' ::
  (hexFixed 4 (bits / 2 ^ 64 % 2 ^ 16) ++ '-' ::
  (hexFixed 4 (bits / 2 ^ 48 % 2 ^ 16) ++ '-' ::
  hexFixed 12 (bits % 2 ^ 48))))

/-- The string `str(uuid.uuid4())`. -/
def uuid4 (bits : Nat) : String :=
  String.mk (uuid4Chars bits)

/-- `str(uuid.uuid4())[:8]`: the job-ID allocation of
`DeploymentService.deploy` (line 276), Python slicing modelled as `take`
on the character sequence. -/
def newJobId (bits : Nat) : String :=
  String.mk ((uuid4 bits).data.take 8)

/-- `DeploymentService._save_deployment_log` (lines 134-138): dumps the
record to the file named `job_id + ".json"`. -/
def save_deployment_log (st : DState) (job_id : String) (r : JobRecord) : DState :=
  { st with files := fsPut st.files (job_id ++ ".json") (FileContent.jsonRecord r) }

/-- `DeploymentService._get_deployment_log` (lines 140-146): loads the
record from `job_id + ".json"`.  `none` models the empty dictionary the
Python code returns when the file does not exist (the falsy not-found
sentinel its callers test for). -/
def get_deployment_log (fs : FileStore) (job_id : String) : Option JobRecord :=
  match fsGet fs (job_id ++ ".json") with
  | some (FileContent.jsonRecord r) => some r
  | _ => none

/-- `DeploymentService.get_deployment_status` (lines 158-160): returns
`_get_deployment_log(job_id)`. -/
def get_deployment_status (fs : FileStore) (job_id : String) : Option JobRecord :=
  get_deployment_log fs job_id

/-- `DeploymentService.get_deployment_logs` (lines 148-156): reads the file
named `job_id + ".log"` and falls back to a fixed message when it does not
exist.  The `jsonRecord` case is unreachable in states produced by this
service, whose only writes go to `".json"` names. -/
def get_deployment_logs (fs : FileStore) (job_id : String) : String :=
  match fsGet fs (job_id ++ ".log") with
  | some (FileContent.text s) => s
  | some (FileContent.jsonRecord _) => ""
  | none => "No logs found for job " ++ job_id

/-- `DeploymentService._log_deployment_step` (lines 123-132): re-reads the
whole record, appends one timestamped entry to its `logs`, and writes the
record back.  The `none` branch corresponds to a `KeyError` on the empty
dictionary in Python; every call site runs after the record was written. -/
def log_deployment_step (st : DState) (job_id message : String) : DState :=
  match get_deployment_log st.files job_id with
  | some r =>
      let p := now st
      save_deployment_log p.2 job_id
        { r with logs := r.logs ++ [{ timestamp := p.1, message := message }] }
  | none => st

/-- The status-update block shared verbatim by `_build_image`,
`_run_container` and `_restart_container`: re-read the record, set status
`"completed"` and `end_time`, write it back.  No write to `progress`. -/
def finish_completed (st : DState) (job_id : String) : DState :=
  match get_deployment_log st.files job_id with
  | some r =>
      let p := now st
      save_deployment_log p.2 job_id { r with status := "completed", end_time := some p.1 }
  | none => st

/-- `DeploymentService._build_image` (lines 62-87).  The simulated build
never raises, so the re-raising except clause of the source is dead here. -/
def build_image (st : DState) (job_id image_name : String) : DState :=
  let st1 := log_deployment_step st job_id "Starting Docker build..."
  let st2 := log_deployment_step st1 job_id ("Building image: " ++ image_name)
  let st3 := log_deployment_step st2 job_id "Build completed successfully"
  finish_completed st3 job_id

/-- `DeploymentService._run_container` (lines 89-104). -/
def run_container (st : DState) (job_id image_name : String) : DState :=
  let st1 := log_deployment_step st job_id "Starting container..."
  let st2 := log_deployment_step st1 job_id ("Running container from image: " ++ image_name)
  let st3 := log_deployment_step st2 job_id "Container started successfully"
  finish_completed st3 job_id

/-- `DeploymentService._restart_container` (lines 106-121). -/
def restart_container (st : DState) (job_id image_name : String) : DState :=
  let st1 := log_deployment_step st job_id "Stopping existing container..."
  let st2 := log_deployment_step st1 job_id "Starting new container..."
  let st3 := log_deployment_step st2 job_id ("Container restarted with image: " ++ image_name)
  finish_completed st3 job_id

/-- The action dispatch of `DeploymentService.deploy` (lines 296-303): the
three recognized actions run to completion; any other action raises
`ValueError("Unknown action: ...")`, modelled as `Except.error` carrying
the message and the state at the raise point. -/
def runAction (st : DState) (job_id action image_name : String) :
    Except (String × DState) DState :=
  if action = "build" then Except.ok (build_image st job_id image_name)
  else if action = "run" then Except.ok (run_container st job_id image_name)
  else if action = "restart" then Except.ok (restart_container st job_id image_name)
  else Except.error ("Unknown action: " ++ action, st)

/-- `DeploymentService.deploy` (lines 273-313): allocates `uuid4()[:8]`,
writes the initial record with status `"running"` and progress 0, runs the
action, and on an exception marks the locally held initial record
`"failed"` with the error text and an end time, saves it, and re-raises
(`Except.error`). -/
def deploy (st : DState) (bits : Nat) (action image_name environment port_mapping : String)
    (env_vars : List (String × String)) : Except (String × DState) (String × DState) :=
  let job_id := newJobId bits
  let p0 := now st
  let deployment_log : JobRecord :=
    { job_id := job_id, action := action, image_name := image_name,
      environment := environment, port_mapping := port_mapping, env_vars := env_vars,
      start_time := p0.1, status := "running", logs := [], progress := 0,
      end_time := none, error := none }
  let st2 := save_deployment_log p0.2 job_id deployment_log
  match runAction st2 job_id action image_name with
  | Except.ok st3 => Except.ok (job_id, st3)
  | Except.error ms =>
      let pE := now ms.2
      Except.error (ms.1,
        save_deployment_log pE.2 job_id
          { deployment_log with status := "failed", error := some ms.1, end_time := some pE.1 })

/-- `DeploymentService.rerun_deployment` (lines 242-271): reads the original
record, raises `ValueError("Deployment ... not found")` on the falsy empty
record, otherwise draws (and discards) a fresh ID and calls `deploy` with
the original's parameters.  The `.get(key, default)` defaults of the source
never fire on records of this shape, where every key is present. -/
def rerun_deployment (st : DState) (bits1 bits2 : Nat) (job_id : String) :
    Except (String × DState) (String × DState) :=
  match get_deployment_status st.files job_id with
  | none => Except.error ("Deployment " ++ job_id ++ " not found", st)
  | some orig =>
      let _new_job_id := newJobId bits1
      deploy st bits2 orig.action orig.image_name orig.environment
        orig.port_mapping orig.env_vars

/-- One entry of the hardcoded details dictionary in the HTTP rerun route
(`routes.py`, `get_deployment_details` result shape). -/
structure RerunDetails where
  job_id : String
  action : String
  image : String
  environment : String
  port_mapping : String
  env_vars : List (String × String)
  deriving DecidableEq, Repr

/-- `DeploymentService.get_deployment_details` (lines 202-224): a hardcoded
two-entry dictionary; every other job ID yields `None`, regardless of what
the file store holds. -/
def get_deployment_details (job_id : String) : Option RerunDetails :=
  if job_id = "abc123" then
    some { job_id := "abc123", action := "build", image := "my-app:latest",
           environment := "production", port_mapping := "8080:80",
           env_vars := [("NODE_ENV", "production")] }
  else if job_id = "def456" then
    some { job_id := "def456", action := "run", image := "nginx:latest",
           environment := "staging", port_mapping := "8081:80", env_vars := [] }
  else none

/-- Shape of the JSON response of the rerun route, with the HTTP status
code attached. -/
structure RouteResponse where
  success : Bool
  httpStatus : Nat
  job_id : Option String
  original_job_id : Option String
  message : String
  deriving DecidableEq, Repr

/-- The HTTP handler `rerun_deployment` in `routes.py` (lines 267-303): it
consults the hardcoded `get_deployment_details` table (not the job store),
returns 404 when the ID is not one of the two hardcoded ones, and otherwise
responds with a freshly generated ID that is unrelated to the ID `deploy`
actually allocates for the new job. -/
def route_rerun_deployment (st : DState) (bits1 bits2 : Nat) (job_id : String) :
    RouteResponse × DState :=
  match get_deployment_details job_id with
  | none =>
      ({ success := false, httpStatus := 404, job_id := none, original_job_id := none,
         message := "Original deployment not found" }, st)
  | some d =>
      let new_job_id := newJobId bits1
      match deploy st bits2 d.action d.image d.environment d.port_mapping d.env_vars with
      | Except.ok p =>
          ({ success := true, httpStatus := 200, job_id := some new_job_id,
             original_job_id := some job_id,
             message := "Deployment rerun started successfully" }, p.2)
      | Except.error ms =>
          ({ success := false, httpStatus := 500, job_id := none, original_job_id := none,
             message := ms.1 }, ms.2)

/-- Project the post-state out of a `deploy` result, whichever way it
ended: on `ok` the returned state, on `error` the state at the raise. -/
def exceptState : Except (String × DState) (String × DState) → DState
  | Except.ok p => p.2
  | Except.error p => p.2

/-- Project the raised error message out of a `deploy` result, `none` when
the call returned normally. -/
def exceptMsg : Except (String × DState) (String × DState) → Option String
  | Except.ok _ => none
  | Except.error p => some p.1

/-- Payload of a metric-source snapshot, abstracted (its contents are never
inspected by the hub). -/
abbrev Snapshot := Nat

/-- Destination of a `socketio.emit` call: without a `room` argument the
event goes to every connected client; with one, to the room's members. -/
inductive EmitTarget where
  | all
  | room (name : String)
  deriving DecidableEq, Repr

/-- One `socketio.emit` call recorded by the model: event name, snapshot
payload, destination.  The wall-clock `timestamp` field of the source
payloads is omitted; no claim depends on it. -/
structure EmitEvent where
  event : String
  data : Snapshot
  target : EmitTarget
  deriving DecidableEq, Repr

/-- `RealtimeService` state (`realtime_service.py`): the publishing flag,
the set of connected session IDs (as an append-if-absent list), plus the
observable history: emitted events, count of adapter fetch calls, and the
logger error lines. -/
structure RTState where
  is_running : Bool
  active_connections : List String
  emitted : List EmitEvent
  fetches : Nat
  errors : List String
  deriving DecidableEq, Repr

/-- `RealtimeService.emit_system_status` (lines 144-153): calls the
monitoring adapter and broadcasts the snapshot with `socketio.emit` (no
room argument, hence to all clients); its own try/except absorbs any fault
from the fetch or the emit, logging it instead.  The adapter outcome is the
`fetch` argument; either way the adapter call itself is counted. -/
def emit_system_status (st : RTState) (fetch : Except String Snapshot) : RTState :=
  match fetch with
  | Except.ok snap =>
      { st with fetches := st.fetches + 1,
                emitted := st.emitted ++ [{ event := "system_status", data := snap,
                                            target := EmitTarget.all }] }
  | Except.error e =>
      { st with fetches := st.fetches + 1,
                errors := st.errors ++ ["Error emitting system status: " ++ e] }

/-- `RealtimeService.emit_deployment_metrics` (lines 155-164): same shape
as `emit_system_status`, broadcasting the `deployment_metrics` event. -/
def emit_deployment_metrics (st : RTState) (fetch : Except String Snapshot) : RTState :=
  match fetch with
  | Except.ok snap =>
      { st with fetches := st.fetches + 1,
                emitted := st.emitted ++ [{ event := "deployment_metrics", data := snap,
                                            target := EmitTarget.all }] }
  | Except.error e =>
      { st with fetches := st.fetches + 1,
                errors := st.errors ++ ["Error emitting deployment metrics: " ++ e] }

/-- The `connect` handler `handle_connect` (lines 33-41): adds the session
ID to `active_connections`, then runs `emit_system_status` and
`emit_deployment_metrics` — both plain broadcasts. -/
def handle_connect (st : RTState) (sid : String)
    (fetchSys fetchMet : Except String Snapshot) : RTState :=
  let st1 := { st with active_connections :=
                 if sid ∈ st.active_connections then st.active_connections
                 else st.active_connections ++ [sid] }
  emit_deployment_metrics (emit_system_status st1 fetchSys) fetchMet

/-- Whether one recorded emit event reaches the client `sid` given the
connection set: a broadcast reaches every connected client; a room-scoped
event reaches only the room's members (none exist in the modelled
fragment, which emits no room events). -/
def deliveredTo (conns : List String) (e : EmitEvent) (sid : String) : Bool :=
  if sid ∈ conns then
    match e.target with
    | EmitTarget.all => true
    | EmitTarget.room _ => false
  else false

/-- Body of one `while` iteration of
`RealtimeService._stream_system_metrics` (lines 112-116): when connections
exist, run `emit_system_status`; otherwise skip the fetch and the
broadcast.  The body returns `ok` for every adapter outcome because
`emit_system_status` catches its faults internally, so no exception ever
escapes to the loop's own except clause. -/
def stream_system_metrics_body (st : RTState) (fetch : Except String Snapshot) :
    Except String RTState :=
  Except.ok (if st.active_connections.isEmpty then st else emit_system_status st fetch)

/-- One tick of `_stream_system_metrics` (lines 112-119): on a normal body
the loop sleeps the regular 5 units; the except clause (log the error,
sleep 10) is kept from the source, reachable only if the body raised. -/
def stream_system_metrics_tick (st : RTState) (fetch : Except String Snapshot) :
    RTState × Nat :=
  match stream_system_metrics_body st fetch with
  | Except.ok st1 => (st1, 5)
  | Except.error e =>
      ({ st with errors := st.errors ++ ["Error streaming system metrics: " ++ e] }, 10)

/-- The `while self.is_running` loop of `_stream_system_metrics`, run for
as many ticks as the list of adapter outcomes supplies; returns the final
state and the sleep delay chosen after each executed tick. -/
def run_system_metrics (st : RTState) :
    List (Except String Snapshot) → RTState × List Nat
  | [] => (st, [])
  | f :: fs =>
      if st.is_running then
        let p := stream_system_metrics_tick st f
        let q := run_system_metrics p.1 fs
        (q.1, p.2 :: q.2)
      else (st, [])

/-- One in-flight `_log_deployment_step` call: the job ID and message it
was invoked with. -/
structure AppendCall where
  job_id : String
  message : String
  deriving DecidableEq, Repr

/-- Progress of one concurrent `_log_deployment_step` caller through its
two shared-store accesses: before its read, after its read (holding the
record it loaded and its drawn timestamp), or finished. -/
inductive CallerPhase where
  | ready
  | loaded (r : JobRecord) (t : Nat)
  | done
  deriving DecidableEq, Repr

/-- Shared state of a concurrent run: the deployment-service state plus one
phase per caller. -/
structure ConcState where
  d : DState
  phases : List CallerPhase
  deriving DecidableEq, Repr

/-- One scheduler step: caller `i` performs its next shared-store access of
`_log_deployment_step` (lines 123-132), which has no lock around the
read-modify-write.  First access: read the record and draw the entry
timestamp.  Second access: write back the loaded record with its own entry
appended — overwriting whatever was stored in between. -/
def concStep (calls : List AppendCall) (s : ConcState) (i : Nat) : ConcState :=
  match calls[i]?, s.phases[i]? with
  | some c, some CallerPhase.ready =>
      match get_deployment_log s.d.files c.job_id with
      | some r =>
          let p := now s.d
          { d := p.2, phases := s.phases.set i (CallerPhase.loaded r p.1) }
      | none => s
  | some c, some (CallerPhase.loaded r t) =>
      { d := save_deployment_log s.d c.job_id
               { r with logs := r.logs ++ [{ timestamp := t, message := c.message }] },
        phases := s.phases.set i CallerPhase.done }
  | _, _ => s

/-- Run a schedule: the interleaving is the list of caller indices, each
occurrence performing that caller's next access. -/
def runConc (calls : List AppendCall) (s : ConcState) : List Nat → ConcState
  | [] => s
  | i :: rest => runConc calls (concStep calls s i) rest

/-- Serialized execution of a sequence of `_log_deployment_step` calls for
one job: each call completes before the next begins. -/
def append_steps (st : DState) (job_id : String) : List String → DState
  | [] => st
  | m :: ms => append_steps (log_deployment_step st job_id m) job_id ms

/-- Reading the file just written returns its content. -/
theorem fsGet_fsPut_same (fs : FileStore) (k : String) (c : FileContent) :
    fsGet (fsPut fs k c) k = some c := by
  simp [fsGet, fsPut]

/-- Writing one file leaves every other file unchanged. -/
theorem fsGet_fsPut_ne (fs : FileStore) (k name : String) (c : FileContent)
    (h : name ≠ k) : fsGet (fsPut fs k c) name = fsGet fs name := by
  simp [fsGet, fsPut, h]

/-- Reading a job record just saved returns that record. -/
theorem get_save_same (st : DState) (j : String) (r : JobRecord) :
    get_deployment_log (save_deployment_log st j r).files j = some r := by
  simp [get_deployment_log, save_deployment_log, fsGet_fsPut_same]

/-- Fixed-width hex rendering has exactly the requested width. -/
theorem hexFixed_length (w n : Nat) : (hexFixed w n).length = w := by
  induction w generalizing n with
  | zero => rfl
  | succ w ih => simp [hexFixed, ih]

/-- The allocated job ID, `str(uuid.uuid4())[:8]`, always has length 8:
the canonical UUID string opens with an 8-hex-digit group. -/
theorem newJobId_length (bits : Nat) : (newJobId bits).length = 8 := by
  have h : (uuid4Chars bits).take 8 = hexFixed 8 (bits / 2 ^ 96 % 2 ^ 32) := by
    simp only [uuid4Chars]
    exact List.take_left' (hexFixed_length 8 (bits / 2 ^ 96 % 2 ^ 32))
  simp [newJobId, uuid4, String.length, h, hexFixed_length]

set_option maxHeartbeats 800000 in
/-- Full characterization of a `deploy` call with action `"build"`: it
succeeds, and the final stored record is completed with progress still 0,
three log lines, and end time four clock steps after the start. -/
theorem deploy_build_spec (st : DState) (bits : Nat) (img env pm : String)
    (ev : List (String × String)) :
    ∃ st3 r, deploy st bits "build" img env pm ev = Except.ok (newJobId bits, st3) ∧
      get_deployment_status st3.files (newJobId bits) = some r ∧
      r.job_id = newJobId bits ∧ r.action = "build" ∧ r.image_name = img ∧
      r.environment = env ∧ r.port_mapping = pm ∧ r.env_vars = ev ∧
      r.status = "completed" ∧ r.progress = 0 ∧
      r.start_time = st.clock ∧ r.end_time = some (st.clock + 4) ∧ r.logs.length = 3 := by
  simp [deploy, runAction, build_image, log_deployment_step, finish_completed,
        save_deployment_log, get_deployment_log, get_deployment_status, now, fsGet, fsPut]

set_option maxHeartbeats 800000 in
/-- Full characterization of a `deploy` call with action `"run"`. -/
theorem deploy_run_spec (st : DState) (bits : Nat) (img env pm : String)
    (ev : List (String × String)) :
    ∃ st3 r, deploy st bits "run" img env pm ev = Except.ok (newJobId bits, st3) ∧
      get_deployment_status st3.files (newJobId bits) = some r ∧
      r.job_id = newJobId bits ∧ r.action = "run" ∧ r.image_name = img ∧
      r.environment = env ∧ r.port_mapping = pm ∧ r.env_vars = ev ∧
      r.status = "completed" ∧ r.progress = 0 ∧
      r.start_time = st.clock ∧ r.end_time = some (st.clock + 4) ∧ r.logs.length = 3 := by
  simp [deploy, runAction, run_container, log_deployment_step, finish_completed,
        save_deployment_log, get_deployment_log, get_deployment_status, now, fsGet, fsPut]

set_option maxHeartbeats 800000 in
/-- Full characterization of a `deploy` call with action `"restart"`. -/
theorem deploy_restart_spec (st : DState) (bits : Nat) (img env pm : String)
    (ev : List (String × String)) :
    ∃ st3 r, deploy st bits "restart" img env pm ev = Except.ok (newJobId bits, st3) ∧
      get_deployment_status st3.files (newJobId bits) = some r ∧
      r.job_id = newJobId bits ∧ r.action = "restart" ∧ r.image_name = img ∧
      r.environment = env ∧ r.port_mapping = pm ∧ r.env_vars = ev ∧
      r.status = "completed" ∧ r.progress = 0 ∧
      r.start_time = st.clock ∧ r.end_time = some (st.clock + 4) ∧ r.logs.length = 3 := by
  simp [deploy, runAction, restart_container, log_deployment_step, finish_completed,
        save_deployment_log, get_deployment_log, get_deployment_status, now, fsGet, fsPut]

/-- Combined characterization of `deploy` over the three valid actions. -/
theorem deploy_ok_spec (st : DState) (bits : Nat) (action img env pm : String)
    (ev : List (String × String))
    (h : action = "build" ∨ action = "run" ∨ action = "restart") :
    ∃ st3 r, deploy st bits action img env pm ev = Except.ok (newJobId bits, st3) ∧
      get_deployment_status st3.files (newJobId bits) = some r ∧
      r.job_id = newJobId bits ∧ r.action = action ∧ r.image_name = img ∧
      r.environment = env ∧ r.port_mapping = pm ∧ r.env_vars = ev ∧
      r.status = "completed" ∧ r.progress = 0 ∧
      r.start_time = st.clock ∧ r.end_time = some (st.clock + 4) ∧ r.logs.length = 3 := by
  rcases h with h | h | h <;> subst h
  · exact deploy_build_spec st bits img env pm ev
  · exact deploy_run_spec st bits img env pm ev
  · exact deploy_restart_spec st bits img env pm ev

/-- Full characterization of a `deploy` call with an unrecognized action:
the `ValueError` is re-raised, and the store holds a record for the
allocated ID, marked failed with the error text — written before the
dispatch, then overwritten by the except clause. -/
theorem deploy_unknown_spec (st : DState) (bits : Nat) (action img env pm : String)
    (ev : List (String × String))
    (h1 : action ≠ "build") (h2 : action ≠ "run") (h3 : action ≠ "restart") :
    ∃ st3 r, deploy st bits action img env pm ev =
        Except.error ("Unknown action: " ++ action, st3) ∧
      get_deployment_status st3.files (newJobId bits) = some r ∧
      r.job_id = newJobId bits ∧ r.action = action ∧ r.image_name = img ∧
      r.environment = env ∧ r.port_mapping = pm ∧ r.env_vars = ev ∧
      r.status = "failed" ∧ r.error = some ("Unknown action: " ++ action) ∧
      r.progress = 0 ∧ r.logs = [] ∧
      r.start_time = st.clock ∧ r.end_time = some (st.clock + 1) := by
  simp [deploy, runAction, h1, h2, h3,
        save_deployment_log, get_deployment_log, get_deployment_status, now, fsGet, fsPut]

/-- `_log_deployment_step` touches no file other than its job's `.json`. -/
theorem log_step_get_other (st : DState) (j m name : String) (h : name ≠ j ++ ".json") :
    fsGet (log_deployment_step st j m).files name = fsGet st.files name := by
  unfold log_deployment_step
  cases hget : get_deployment_log st.files j with
  | none => rfl
  | some r => simp [save_deployment_log, now, fsGet_fsPut_ne _ _ _ _ h]

/-- The completion write touches no file other than its job's `.json`. -/
theorem finish_get_other (st : DState) (j name : String) (h : name ≠ j ++ ".json") :
    fsGet (finish_completed st j).files name = fsGet st.files name := by
  unfold finish_completed
  cases hget : get_deployment_log st.files j with
  | none => rfl
  | some r => simp [save_deployment_log, now, fsGet_fsPut_ne _ _ _ _ h]

set_option maxHeartbeats 800000 in
/-- Whatever the action, every file written by `deploy` is named
`newJobId bits ++ ".json"`; all other files keep their previous content. -/
theorem deploy_get_other (st : DState) (bits : Nat) (action img env pm : String)
    (ev : List (String × String)) (name : String) (h : name ≠ newJobId bits ++ ".json") :
    fsGet (exceptState (deploy st bits action img env pm ev)).files name =
      fsGet st.files name := by
  unfold deploy runAction
  by_cases hb : action = "build"
  · subst hb
    simp [exceptState, build_image,
          log_step_get_other _ _ _ _ h, finish_get_other _ _ _ h,
          save_deployment_log, now, fsGet_fsPut_ne _ _ _ _ h]
  · by_cases hr : action = "run"
    · subst hr
      simp [exceptState, run_container,
            log_step_get_other _ _ _ _ h, finish_get_other _ _ _ h,
            save_deployment_log, now, fsGet_fsPut_ne _ _ _ _ h]
    · by_cases hs : action = "restart"
      · subst hs
        simp [exceptState, restart_container,
              log_step_get_other _ _ _ _ h, finish_get_other _ _ _ h,
              save_deployment_log, now, fsGet_fsPut_ne _ _ _ _ h]
      · simp [hb, hr, hs, exceptState,
              save_deployment_log, now, fsGet_fsPut_ne _ _ _ _ h]

/-- A job's `.log` name never collides with its `.json` name. -/
theorem json_ne_log (j : String) : j ++ ".log" ≠ j ++ ".json" := by
  intro h
  have hd := congrArg String.data h
  simp only [String.data_append] at hd
  have := List.append_cancel_left hd
  exact absurd (congrArg List.length this) (by decide)

/-- Serialized `_log_deployment_step` calls append exactly their messages,
in call order, to the job's log. -/
theorem append_steps_spec (msgs : List String) (st : DState) (job_id : String)
    (r : JobRecord) (h : get_deployment_log st.files job_id = some r) :
    ∃ r2, get_deployment_log (append_steps st job_id msgs).files job_id = some r2 ∧
      r2.logs.map LogEntry.message = r.logs.map LogEntry.message ++ msgs := by
  induction msgs generalizing st r with
  | nil => exact ⟨r, h, by simp [append_steps]⟩
  | cons m ms ih =>
      have hstep : log_deployment_step st job_id m =
          save_deployment_log { st with clock := st.clock + 1 } job_id
            { r with logs := r.logs ++ [{ timestamp := st.clock, message := m }] } := by
        simp [log_deployment_step, h, now]
      have h2 := get_save_same { st with clock := st.clock + 1 } job_id
        { r with logs := r.logs ++ [{ timestamp := st.clock, message := m }] }
      obtain ⟨r2, hget, hmap⟩ := ih _ _ (hstep ▸ h2)
      refine ⟨r2, by simpa [append_steps, hstep] using hget, ?_⟩
      simp [hmap]

/-- C1 (counterexample): submitting action `"explode"` fails the call with
the `ValueError` text, yet a job record for the allocated ID exists
afterwards, marked failed — refuting that the call fails before any job
state is written and that no record exists for the allocated job ID. -/
theorem C1_claim_counterexample :
    exceptMsg (deploy (DState.mk [] 0) 0 "explode" "my-app" "production" "8080:80" []) =
      some "Unknown action: explode" ∧
    (get_deployment_status
        (exceptState (deploy (DState.mk [] 0) 0 "explode" "my-app" "production" "8080:80" [])).files
        (newJobId 0)).map JobRecord.status = some "failed" := by
  exact ⟨rfl, rfl⟩

/-- C1 (amended): a `deploy` call with an action outside
build/run/restart fails with the `InvalidArgument`-shaped error
`Unknown action: ...`, but only after the initial record was written: a
record for the allocated job ID exists afterwards, with status `failed`,
the error text attached, and empty logs. -/
theorem C1_invalid_action_failed_record (st : DState) (bits : Nat)
    (action img env pm : String) (ev : List (String × String))
    (h1 : action ≠ "build") (h2 : action ≠ "run") (h3 : action ≠ "restart") :
    ∃ st3 r, deploy st bits action img env pm ev =
        Except.error ("Unknown action: " ++ action, st3) ∧
      get_deployment_status st3.files (newJobId bits) = some r ∧
      r.job_id = newJobId bits ∧ r.status = "failed" ∧
      r.error = some ("Unknown action: " ++ action) ∧ r.logs = [] := by
  obtain ⟨st3, r, heq, hget, hid, _, _, _, _, _, hst, herr, _, hlogs, _, _⟩ :=
    deploy_unknown_spec st bits action img env pm ev h1 h2 h3
  exact ⟨st3, r, heq, hget, hid, hst, herr, hlogs⟩

/-- C1 (witness): the amended statement at the concrete action
`"explode"`. -/
theorem C1_invalid_action_failed_record_witness :
    ∃ st3 r, deploy (DState.mk [] 5) 2 "explode" "web" "staging" "8081:80" [] =
        Except.error ("Unknown action: " ++ "explode", st3) ∧
      get_deployment_status st3.files (newJobId 2) = some r ∧
      r.job_id = newJobId 2 ∧ r.status = "failed" ∧
      r.error = some ("Unknown action: " ++ "explode") ∧ r.logs = [] :=
  C1_invalid_action_failed_record (DState.mk [] 5) 2 "explode" "web" "staging" "8081:80" []
    (by decide) (by decide) (by decide)

/-- C2 (counterexample): the scenario of the claim — `action="build"`,
`image="my-app:latest"`, `environment="production"`,
`portMapping="8080:80"`, empty env vars — succeeds, but the final stored
record's progress is 0, not 100. -/
theorem C2_claim_counterexample :
    exceptMsg (deploy (DState.mk [] 0) 0 "build" "my-app:latest" "production" "8080:80" []) =
      none ∧
    (get_deployment_status
        (exceptState (deploy (DState.mk [] 0) 0 "build" "my-app:latest" "production" "8080:80" [])).files
        (newJobId 0)).map JobRecord.progress = some 0 ∧
    (0 : Nat) ≠ 100 := by
  exact ⟨rfl, rfl, by decide⟩

/-- C2 (amended): a `deploy` call with a valid action succeeds with a
job ID of length 8, and the final stored record has status `completed`
and an end timestamp that is set and is at least the start timestamp —
but its progress is 0, unchanged from the initial write, not 100. -/
theorem C2_deploy_success_spec (st : DState) (bits : Nat) (action img env pm : String)
    (ev : List (String × String))
    (h : action = "build" ∨ action = "run" ∨ action = "restart") :
    (newJobId bits).length = 8 ∧
    ∃ st3 r, deploy st bits action img env pm ev = Except.ok (newJobId bits, st3) ∧
      get_deployment_status st3.files (newJobId bits) = some r ∧
      r.status = "completed" ∧ r.progress = 0 ∧
      r.start_time = st.clock ∧ r.end_time = some (st.clock + 4) ∧
      r.start_time ≤ st.clock + 4 := by
  obtain ⟨st3, r, heq, hget, _, _, _, _, _, _, hst, hpr, hstart, hend, _⟩ :=
    deploy_ok_spec st bits action img env pm ev h
  exact ⟨newJobId_length bits,
    st3, r, heq, hget, hst, hpr, hstart, hend, by simp [hstart]⟩

/-- C2 (witness): the amended statement at the claim's own scenario
inputs. -/
theorem C2_deploy_success_spec_witness :
    (newJobId 3).length = 8 ∧
    ∃ st3 r, deploy (DState.mk [] 0) 3 "build" "my-app:latest" "production" "8080:80" [] =
        Except.ok (newJobId 3, st3) ∧
      get_deployment_status st3.files (newJobId 3) = some r ∧
      r.status = "completed" ∧ r.progress = 0 ∧
      r.start_time = (DState.mk [] 0).clock ∧
      r.end_time = some ((DState.mk [] 0).clock + 4) ∧
      r.start_time ≤ (DState.mk [] 0).clock + 4 :=
  C2_deploy_success_spec (DState.mk [] 0) 3 "build" "my-app:latest" "production" "8080:80" []
    (Or.inl rfl)

/-- C3 (counterexample): a fault raised after the initial record went in
with status `running` (here: the unknown-action `ValueError`) does mark
the stored record failed with the error text, but the exception is
re-raised to the caller instead of being absorbed — refuting that the
fault is not propagated as a raised error. -/
theorem C3_claim_counterexample :
    (get_deployment_status
        (exceptState (deploy (DState.mk [] 3) 4 "explode" "api-service:v2.1" "development" "3000:3000" [])).files
        (newJobId 4)).map JobRecord.error =
      some (some "Unknown action: explode") ∧
    exceptMsg (deploy (DState.mk [] 3) 4 "explode" "api-service:v2.1" "development" "3000:3000" []) =
      some "Unknown action: explode" := by
  exact ⟨rfl, rfl⟩

/-- C3 (amended): once the initial record is written with status
`running`, a fault during the action dispatch leaves the stored record
with status `failed` and the error text attached — but `deploy` re-raises
the fault to its caller (the HTTP route then turns it into an error
response) instead of absorbing it. -/
theorem C3_fault_failed_record_but_reraised (st : DState) (bits : Nat)
    (action img env pm : String) (ev : List (String × String))
    (h1 : action ≠ "build") (h2 : action ≠ "run") (h3 : action ≠ "restart") :
    ∃ st3 r, deploy st bits action img env pm ev =
        Except.error ("Unknown action: " ++ action, st3) ∧
      exceptMsg (deploy st bits action img env pm ev) =
        some ("Unknown action: " ++ action) ∧
      get_deployment_status st3.files (newJobId bits) = some r ∧
      r.status = "failed" ∧ r.error = some ("Unknown action: " ++ action) := by
  obtain ⟨st3, r, heq, hget, _, _, _, _, _, _, hst, herr, _, _, _, _⟩ :=
    deploy_unknown_spec st bits action img env pm ev h1 h2 h3
  exact ⟨st3, r, heq, by simp [heq, exceptMsg], hget, hst, herr⟩

/-- C3 (witness): the amended statement at a concrete faulting input. -/
theorem C3_fault_failed_record_but_reraised_witness :
    ∃ st3 r, deploy (DState.mk [] 7) 6 "deploy-all" "img" "production" "80:80" [] =
        Except.error ("Unknown action: " ++ "deploy-all", st3) ∧
      exceptMsg (deploy (DState.mk [] 7) 6 "deploy-all" "img" "production" "80:80" []) =
        some ("Unknown action: " ++ "deploy-all") ∧
      get_deployment_status st3.files (newJobId 6) = some r ∧
      r.status = "failed" ∧ r.error = some ("Unknown action: " ++ "deploy-all") :=
  C3_fault_failed_record_but_reraised (DState.mk [] 7) 6 "deploy-all" "img" "production" "80:80" []
    (by decide) (by decide) (by decide)

/-- C4 (confirmed): `get_deployment_status` returns the not-found
sentinel (`none`, the empty dictionary of the Python code) exactly when
no `.json` record file exists for the job ID, and returns the stored
record when one does. -/
theorem C4_status_record_or_not_found (fs : FileStore) (job_id : String) :
    (fsGet fs (job_id ++ ".json") = none → get_deployment_status fs job_id = none) ∧
    (∀ r, fsGet fs (job_id ++ ".json") = some (FileContent.jsonRecord r) →
       get_deployment_status fs job_id = some r) := by
  constructor
  · intro h
    simp [get_deployment_status, get_deployment_log, h]
  · intro r h
    simp [get_deployment_status, get_deployment_log, h]

/-- C4 (witness): the contract at a concrete empty store and at a store
holding one record. -/
theorem C4_status_record_or_not_found_witness :
    get_deployment_status [] "missing0" = none ∧
    get_deployment_status
      [("abcd1234.json", FileContent.jsonRecord
          ⟨"abcd1234", "build", "my-app:latest", "production", "8080:80", [], 0,
           "running", [], 0, none, none⟩)] "abcd1234" =
      some ⟨"abcd1234", "build", "my-app:latest", "production", "8080:80", [], 0,
            "running", [], 0, none, none⟩ :=
  ⟨(C4_status_record_or_not_found [] "missing0").1 rfl,
   (C4_status_record_or_not_found
      [("abcd1234.json", FileContent.jsonRecord
          ⟨"abcd1234", "build", "my-app:latest", "production", "8080:80", [], 0,
           "running", [], 0, none, none⟩)] "abcd1234").2 _ rfl⟩

/-- C5 (counterexample): a job really created by `deploy` (ID
`"00000000"`) exists in the store, yet the HTTP rerun endpoint answers
404 `Original deployment not found` for it, because the route consults a
hardcoded two-entry details table instead of the job store — refuting
that rerun returns a new job ID for every existing job. -/
theorem C5_claim_counterexample :
    (deploy (DState.mk [] 0) 0 "build" "web-app" "staging" "9090:80" []) =
      Except.ok ("00000000",
        exceptState (deploy (DState.mk [] 0) 0 "build" "web-app" "staging" "9090:80" [])) ∧
    (get_deployment_status
        (exceptState (deploy (DState.mk [] 0) 0 "build" "web-app" "staging" "9090:80" [])).files
        "00000000").isSome = true ∧
    (route_rerun_deployment
        (exceptState (deploy (DState.mk [] 0) 0 "build" "web-app" "staging" "9090:80" []))
        17 23 "00000000").1 =
      { success := false, httpStatus := 404, job_id := none, original_job_id := none,
        message := "Original deployment not found" } := by
  exact ⟨rfl, rfl, rfl⟩

/-- C5 (amended): the service-level `rerun_deployment` behaves as the
claim says — on a stored job with a valid action it starts a new job
whose action, image, environment, port mapping and env vars equal the
original's, returning its fresh ID (distinct whenever the drawn ID
differs from the original's), and on an unknown ID it raises
`Deployment ... not found` and leaves the state untouched.  The HTTP
rerun route, by contrast, looks IDs up in a hardcoded two-entry table, so
it answers not-found for every job actually created by `deploy`. -/
theorem C5_service_rerun_spec (st : DState) (bits1 bits2 : Nat) :
    (∀ job_id orig, get_deployment_status st.files job_id = some orig →
       (orig.action = "build" ∨ orig.action = "run" ∨ orig.action = "restart") →
       newJobId bits2 ≠ job_id →
       ∃ st2 r, rerun_deployment st bits1 bits2 job_id =
           Except.ok (newJobId bits2, st2) ∧
         newJobId bits2 ≠ job_id ∧
         get_deployment_status st2.files (newJobId bits2) = some r ∧
         r.action = orig.action ∧ r.image_name = orig.image_name ∧
         r.environment = orig.environment ∧ r.port_mapping = orig.port_mapping ∧
         r.env_vars = orig.env_vars) ∧
    (∀ job_id, get_deployment_status st.files job_id = none →
       rerun_deployment st bits1 bits2 job_id =
         Except.error ("Deployment " ++ job_id ++ " not found", st)) := by
  constructor
  · intro job_id orig hget hvalid hid
    obtain ⟨st2, r, heq, hget2, _, hact, himg, henv, hpm, hev, _, _, _, _, _⟩ :=
      deploy_ok_spec st bits2 orig.action orig.image_name orig.environment
        orig.port_mapping orig.env_vars hvalid
    refine ⟨st2, r, ?_, hid, hget2, hact, himg, henv, hpm, hev⟩
    simp [rerun_deployment, hget, heq]
  · intro job_id hget
    simp [rerun_deployment, hget]

/-- C5 (witness): the service-level statement at a store holding one
build job, and at an unknown ID. -/
theorem C5_service_rerun_spec_witness :
    (∃ st2 r, rerun_deployment
        (DState.mk [("origjob1.json", FileContent.jsonRecord
            ⟨"origjob1", "build", "my-app:latest", "production", "8080:80",
             [("NODE_ENV", "production")], 0, "completed", [], 0, some 4, none⟩)] 9)
        1 1 "origjob1" =
        Except.ok (newJobId 1, st2) ∧
      newJobId 1 ≠ "origjob1" ∧
      get_deployment_status st2.files (newJobId 1) = some r ∧
      r.action = "build" ∧ r.image_name = "my-app:latest" ∧
      r.environment = "production" ∧ r.port_mapping = "8080:80" ∧
      r.env_vars = [("NODE_ENV", "production")]) ∧
    rerun_deployment
        (DState.mk [("origjob1.json", FileContent.jsonRecord
            ⟨"origjob1", "build", "my-app:latest", "production", "8080:80",
             [("NODE_ENV", "production")], 0, "completed", [], 0, some 4, none⟩)] 9)
        1 1 "nosuchjob" =
      Except.error ("Deployment " ++ "nosuchjob" ++ " not found",
        DState.mk [("origjob1.json", FileContent.jsonRecord
            ⟨"origjob1", "build", "my-app:latest", "production", "8080:80",
             [("NODE_ENV", "production")], 0, "completed", [], 0, some 4, none⟩)] 9) := by
  constructor
  · exact (C5_service_rerun_spec _ 1 1).1 "origjob1"
      ⟨"origjob1", "build", "my-app:latest", "production", "8080:80",
       [("NODE_ENV", "production")], 0, "completed", [], 0, some 4, none⟩
      rfl (Or.inl rfl) (by decide)
  · exact (C5_service_rerun_spec _ 1 1).2 "nosuchjob" rfl

/-- C6 (counterexample): when `"viewerB"` connects while `"viewerA"` is
already connected, the one-shot push of system status and deployment
metrics is emitted without a room argument, so it is delivered to
`"viewerA"` as well — refuting that the push goes to the connecting
connection only. -/
theorem C6_claim_counterexample :
    (handle_connect (RTState.mk true ["viewerA"] [] 0 []) "viewerB"
        (Except.ok 7) (Except.ok 9)).emitted =
      [{ event := "system_status", data := 7, target := EmitTarget.all },
       { event := "deployment_metrics", data := 9, target := EmitTarget.all }] ∧
    deliveredTo
      (handle_connect (RTState.mk true ["viewerA"] [] 0 []) "viewerB"
        (Except.ok 7) (Except.ok 9)).active_connections
      { event := "system_status", data := 7, target := EmitTarget.all } "viewerA" = true ∧
    "viewerA" ≠ "viewerB" := by
  exact ⟨rfl, rfl, by decide⟩

/-- C6 (amended): `handle_connect` registers the connection and
immediately pushes the current system status and deployment metrics, but
as a broadcast: both events carry the all-connections target and are
delivered to every registered connection, not only the connecting one. -/
theorem C6_connect_broadcast (st : RTState) (sid : String) (s m : Snapshot) :
    sid ∈ (handle_connect st sid (Except.ok s) (Except.ok m)).active_connections ∧
    (handle_connect st sid (Except.ok s) (Except.ok m)).emitted =
      st.emitted ++ [{ event := "system_status", data := s, target := EmitTarget.all },
                     { event := "deployment_metrics", data := m, target := EmitTarget.all }] ∧
    ∀ c ∈ (handle_connect st sid (Except.ok s) (Except.ok m)).active_connections,
      deliveredTo (handle_connect st sid (Except.ok s) (Except.ok m)).active_connections
        { event := "system_status", data := s, target := EmitTarget.all } c = true := by
  refine ⟨?_, ?_, ?_⟩
  · by_cases hmem : sid ∈ st.active_connections <;>
      simp [handle_connect, emit_system_status, emit_deployment_metrics, hmem]
  · by_cases hmem : sid ∈ st.active_connections <;>
      simp [handle_connect, emit_system_status, emit_deployment_metrics, hmem]
  · intro c hc
    simp [deliveredTo, hc]

/-- C7 (counterexample): two concurrent `_log_deployment_step` calls for
job `"j"`, interleaved read-read-write-write, leave exactly one stored
log line — the first caller's line is lost, refuting that N concurrent
callers always produce exactly N lines. -/
theorem C7_claim_counterexample :
    (get_deployment_log
        (runConc [⟨"j", "first line"⟩, ⟨"j", "second line"⟩]
          ⟨⟨[("j.json", FileContent.jsonRecord
               ⟨"j", "build", "app", "dev", "8080:80", [], 0, "running", [], 0, none, none⟩)], 1⟩,
           [CallerPhase.ready, CallerPhase.ready]⟩
          [0, 1, 0, 1]).d.files "j").map (fun r => r.logs.map LogEntry.message) =
      some ["second line"] ∧
    (["second line"] : List String).length ≠ 2 := by
  exact ⟨rfl, by decide⟩

/-- C7 (amended): `_log_deployment_step` calls that are serialized (each
call's read-modify-write completes before the next begins) produce
exactly N stored lines in call order; but the function takes no per-job
lock, so concurrently interleaved calls can lose lines. -/
theorem C7_sequential_append_spec (msgs : List String) (st : DState) (job_id : String)
    (r : JobRecord) (h : get_deployment_log st.files job_id = some r) :
    ∃ r2, get_deployment_log (append_steps st job_id msgs).files job_id = some r2 ∧
      r2.logs.map LogEntry.message = r.logs.map LogEntry.message ++ msgs ∧
      r2.logs.length = r.logs.length + msgs.length := by
  obtain ⟨r2, hget, hmap⟩ := append_steps_spec msgs st job_id r h
  refine ⟨r2, hget, hmap, ?_⟩
  have := congrArg List.length hmap
  simpa using this

/-- C7 (witness): three serialized calls on a job with an empty log
produce exactly its three messages in order. -/
theorem C7_sequential_append_spec_witness :
    ∃ r2, get_deployment_log
        (append_steps
          (DState.mk [("j.json", FileContent.jsonRecord
             ⟨"j", "build", "app", "dev", "8080:80", [], 0, "running", [], 0, none, none⟩)] 1)
          "j" ["step one", "step two", "step three"]).files "j" = some r2 ∧
      r2.logs.map LogEntry.message =
        (⟨"j", "build", "app", "dev", "8080:80", [], 0, "running", [], 0, none, none⟩ :
          JobRecord).logs.map LogEntry.message ++ ["step one", "step two", "step three"] ∧
      r2.logs.length =
        (⟨"j", "build", "app", "dev", "8080:80", [], 0, "running", [], 0, none, none⟩ :
          JobRecord).logs.length + (["step one", "step two", "step three"] : List String).length :=
  C7_sequential_append_spec ["step one", "step two", "step three"]
    (DState.mk [("j.json", FileContent.jsonRecord
       ⟨"j", "build", "app", "dev", "8080:80", [], 0, "running", [], 0, none, none⟩)] 1)
    "j" ⟨"j", "build", "app", "dev", "8080:80", [], 0, "running", [], 0, none, none⟩ rfl

/-- C8 (confirmed): while publishing is enabled and zero connections are
registered, the system-metrics loop runs every scheduled tick with its
normal 5-unit delay but performs no adapter fetch and no broadcast: the
whole state — emitted events and fetch count included — is unchanged, so
no periodic broadcast ever happens while the connection set is empty. -/
theorem C8_idle_loop_runs_without_broadcast (st : RTState)
    (fetches : List (Except String Snapshot))
    (hconn : st.active_connections = []) (hrun : st.is_running = true) :
    run_system_metrics st fetches = (st, List.replicate fetches.length 5) := by
  induction fetches with
  | nil => rfl
  | cons f fs ih =>
      simp [run_system_metrics, hrun, stream_system_metrics_tick,
            stream_system_metrics_body, hconn, ih, List.replicate_succ]

/-- C8 (witness): a three-tick run with no connections: state unchanged,
three regular 5-unit delays. -/
theorem C8_idle_loop_runs_without_broadcast_witness :
    run_system_metrics (RTState.mk true [] [] 0 [])
        [Except.ok 1, Except.error "adapter down", Except.ok 2] =
      (RTState.mk true [] [] 0 [], List.replicate 3 5) :=
  C8_idle_loop_runs_without_broadcast (RTState.mk true [] [] 0 [])
    [Except.ok 1, Except.error "adapter down", Except.ok 2] rfl rfl

/-- C9 (counterexample): a tick whose snapshot fetch faults is caught and
logged inside `emit_system_status`, the broadcast is skipped and the loop
survives — but the loop then sleeps its normal 5-unit interval, not the
longer 10-unit retry delay, because the absorbed fault never reaches the
loop's own except clause. -/
theorem C9_claim_counterexample :
    stream_system_metrics_tick (RTState.mk true ["viewerA"] [] 0 [])
        (Except.error "boom") =
      (RTState.mk true ["viewerA"] [] 1 ["Error emitting system status: boom"], 5) ∧
    (5 : Nat) ≠ 10 := by
  exact ⟨rfl, by decide⟩

/-- C9 (amended): on a tick whose fetch (or broadcast) faults while
connections exist, the fault is caught and logged, that tick's broadcast
is skipped, and the loop neither terminates nor crashes — but it then
waits the normal 5-unit interval; the longer 10-unit retry delay of the
loop's except clause is unreachable for such faults, since
`emit_system_status` absorbs them itself. -/
theorem C9_error_tick_logs_and_keeps_normal_delay (st : RTState) (e : String)
    (hconn : st.active_connections ≠ []) :
    stream_system_metrics_tick st (Except.error e) =
      ({ st with fetches := st.fetches + 1,
                 errors := st.errors ++ ["Error emitting system status: " ++ e] }, 5) := by
  have hne : st.active_connections.isEmpty = false := by
    cases hc : st.active_connections with
    | nil => exact absurd hc hconn
    | cons a l => rfl
  simp [stream_system_metrics_tick, stream_system_metrics_body, hne, emit_system_status]

/-- C9 (witness): the amended statement at a concrete connected state and
fault. -/
theorem C9_error_tick_logs_and_keeps_normal_delay_witness :
    stream_system_metrics_tick (RTState.mk true ["viewerB"] [] 2 ["old"])
        (Except.error "psutil failure") =
      (RTState.mk true ["viewerB"] [] 3
         ["old", "Error emitting system status: psutil failure"], 5) :=
  C9_error_tick_logs_and_keeps_normal_delay (RTState.mk true ["viewerB"] [] 2 ["old"])
    "psutil failure" (by decide)

/-- C10 (confirmed): `deploy` (and the `_log_deployment_step` calls it
makes) writes only the job's `.json` file, while `get_deployment_logs`
reads only the job's `.log` file; so for any job created by `deploy` on a
store with no such `.log` file, `get_deployment_logs` returns the
fallback `No logs found for job ...` — even though (for a valid action) a
record for the job does exist in the store. -/
theorem C10_logs_read_wrong_file (st : DState) (bits : Nat)
    (action img env pm : String) (ev : List (String × String))
    (h : fsGet st.files (newJobId bits ++ ".log") = none) :
    get_deployment_logs (exceptState (deploy st bits action img env pm ev)).files
        (newJobId bits) = "No logs found for job " ++ newJobId bits ∧
    ((action = "build" ∨ action = "run" ∨ action = "restart") →
      (get_deployment_status (exceptState (deploy st bits action img env pm ev)).files
          (newJobId bits)).isSome = true) := by
  constructor
  · have hpres := deploy_get_other st bits action img env pm ev
      (newJobId bits ++ ".log") (json_ne_log (newJobId bits))
    simp [get_deployment_logs, hpres, h]
  · intro hvalid
    obtain ⟨st3, r, heq, hget, _⟩ := deploy_ok_spec st bits action img env pm ev hvalid
    simp [heq, exceptState, hget]

/-- C10 (witness): a build job deployed on an empty store: its logs query
returns the fallback text although its status record exists. -/
theorem C10_logs_read_wrong_file_witness :
    get_deployment_logs
        (exceptState (deploy (DState.mk [] 0) 8 "build" "my-app" "dev" "8080:80" [])).files
        (newJobId 8) = "No logs found for job " ++ newJobId 8 ∧
    ((("build" : String) = "build" ∨ ("build" : String) = "run" ∨
        ("build" : String) = "restart") →
      (get_deployment_status
          (exceptState (deploy (DState.mk [] 0) 8 "build" "my-app" "dev" "8080:80" [])).files
          (newJobId 8)).isSome = true) :=
  C10_logs_read_wrong_file (DState.mk [] 0) 8 "build" "my-app" "dev" "8080:80" [] rfl

end CloudDash
